import Mathlib

/-!
Verification of the status-pin reconciliation engine (`src/handler.js`).

The JavaScript source is shallowly embedded: each function of the handler
becomes a pure Lean definition; I/O results (file reads, Telegram API calls,
balance fetches) are passed in as explicit arguments, and the observable
effects (messages sent, pin attempts, state-file writes) are returned in a
trace structure.  Times are integers (milliseconds), JSON numbers that hold
monetary amounts are rationals.
-/

namespace StatusPin

/-! ## Usage extractor (`parseLastUsage`, handler.js lines 144-167)

A session log is a list of lines.  A line either fails `JSON.parse`
(modelled as `none`) or yields a record that may carry a `message` object
with a `role` and an optional `usage` block whose numeric fields may be
absent (JS `u.input || 0` defaults them to 0). -/

/-- A `usage` block as found in a parsed JSONL record; fields may be absent. -/
structure UsageRaw where
  input : Option Nat
  output : Option Nat
  cacheRead : Option Nat
deriving DecidableEq, Repr

/-- The `message` object of a parsed JSONL record. -/
structure LineMsg where
  role : String
  usage : Option UsageRaw
deriving DecidableEq, Repr

/-- A successfully parsed JSONL record (`message` may be absent). -/
structure LineRec where
  message : Option LineMsg
deriving DecidableEq, Repr

/-- One line of the log file: `none` when `JSON.parse` throws. -/
def LineEntry := Option LineRec
deriving DecidableEq

/-- The usage figures returned by the extractor (defaults applied). -/
structure Usage where
  input : Nat
  output : Nat
  cacheRead : Nat
deriving DecidableEq, Repr

/-- The qualification test applied to one line: the line must parse, its
`message.role` must be `"assistant"` and a `usage` block must be present;
the figures are read with `|| 0` defaulting (handler.js lines 152-159). -/
def extractUsage (l : LineEntry) : Option Usage :=
  match l with
  | none => none
  | some rec =>
    match rec.message with
    | none => none
    | some m =>
      if m.role = "assistant" then
        match m.usage with
        | none => none
        | some u =>
          some { input := u.input.getD 0, output := u.output.getD 0,
                 cacheRead := u.cacheRead.getD 0 }
      else none

/-- The backward `for` loop of `parseLastUsage`: first qualifying line of the
already-reversed list (handler.js lines 150-164). -/
def findUsageRev : List LineEntry → Option Usage
  | [] => none
  | l :: rest =>
    match extractUsage l with
    | some u => some u
    | none => findUsageRev rest

/-- `parseLastUsage` (handler.js lines 144-167): `none` when the file does not
exist, otherwise scan the lines from the end backward. -/
def parseLastUsage (file : Option (List LineEntry)) : Option Usage :=
  match file with
  | none => none
  | some lines => findUsageRev lines.reverse

lemma findUsageRev_eq_head? (ls : List LineEntry) :
    findUsageRev ls = (ls.filterMap extractUsage).head? := by
  induction ls with
  | nil => rfl
  | cons l rest ih =>
    cases h : extractUsage l with
    | none => simp [findUsageRev, h, List.filterMap_cons, ih]
    | some u => simp [findUsageRev, h, List.filterMap_cons]

/-- **C3.** For every log file content, `parseLastUsage` returns the usage
figures of the last line that parses as a record with role `"assistant"` and
a usage block, skipping unparseable lines and non-qualifying records; it
returns `none` when the file does not exist or when no line qualifies. -/
theorem parseLastUsage_last_assistant_usage (file : Option (List LineEntry)) :
    parseLastUsage file =
      match file with
      | none => none
      | some lines => (lines.filterMap extractUsage).getLast? := by
  cases file with
  | none => rfl
  | some lines =>
    show findUsageRev lines.reverse = (lines.filterMap extractUsage).getLast?
    rw [findUsageRev_eq_head?, List.filterMap_reverse, List.head?_reverse]

/-! ## Publisher (`ensurePin`, handler.js lines 352-396)

The Telegram calls are passed in as oracles: `edit` is the outcome the
`editMessageText` call would have, `send` the outcome of `sendMessage`
(returning the new `message_id`), `pin` the outcome of `pinChatMessage`.
The returned structure records the result value together with the
observable effects: number of `sendMessage` calls, number of
`pinChatMessage` calls, and the record written by `saveState` (if any). -/

/-- A Telegram API error: `code` is `json.error_code` (absent for transport
errors such as network failures), `msg` the description. -/
structure TgError where
  code : Option Int
  msg : String
deriving DecidableEq, Repr

/-- Outcome of the `editMessageText` call. -/
inductive EditOutcome where
  | ok
  | err (e : TgError)
deriving DecidableEq, Repr

/-- The persisted pin record (`pin-state.json`). -/
structure PinState where
  messageId : Nat
  chatId : String
  sessionFile : String
deriving DecidableEq, Repr

/-- The active session descriptor as used by the update cycle (capacity
already resolved). -/
structure Session where
  sessionFile : String
  model : String
  chatId : String
  contextWindow : Nat
deriving DecidableEq, Repr

/-- Substring containment on character lists (`pat` occurs contiguously in
the second argument). -/
def hasSubstr (pat : List Char) : List Char → Bool
  | [] => pat.isEmpty
  | c :: cs => pat.isPrefixOf (c :: cs) || hasSubstr pat cs

/-- The `/not modified/i.test(err.message)` check of handler.js line 367:
case-insensitive substring containment (the pattern is lower-case, so the
subject is lower-cased). -/
def notModifiedMsg (s : String) : Bool :=
  hasSubstr "not modified".data (s.data.map Char.toLower)

/-- Result and observable effects of one `ensurePin` call. -/
structure EnsureOut where
  result : Except TgError Nat
  sends : Nat
  pinAttempts : Nat
  saved : Option PinState
deriving Repr

/-- `ensurePin` (handler.js lines 352-396).  `state` is what `loadState()`
returned.  The guard `state?.messageId && state.chatId === session.chatId`
is modelled with JS truthiness of `messageId` as `≠ 0`. -/
def ensurePin (session : Session) (html : String) (state : Option PinState)
    (edit : EditOutcome) (send : Except TgError Nat)
    (pin : Except TgError Unit) : EnsureOut :=
  let _ := html
  let _ := pin
  let createNew : EnsureOut :=
    match send with
    | .error e => { result := .error e, sends := 1, pinAttempts := 0, saved := none }
    | .ok mid =>
      { result := .ok mid, sends := 1, pinAttempts := 1,
        saved := some { messageId := mid, chatId := session.chatId,
                        sessionFile := session.sessionFile } }
  match state with
  | none => createNew
  | some s =>
    if s.messageId ≠ 0 ∧ s.chatId = session.chatId then
      match edit with
      | .ok => { result := .ok s.messageId, sends := 0, pinAttempts := 0, saved := none }
      | .err e =>
        if e.code = some 400 ∧ notModifiedMsg e.msg then
          { result := .ok s.messageId, sends := 0, pinAttempts := 0, saved := none }
        else if e.code ≠ some 400 then
          { result := .ok s.messageId, sends := 0, pinAttempts := 0, saved := none }
        else createNew
    else createNew

/-- **C1.** When a pin record exists for the target chat and the edit call
fails with any error other than the "message not found" semantic error
(a non-400 transport/rate-limit error, or the 400 "message is not modified"
no-op), `ensurePin` writes no state, returns the stored message id, and
sends no new message. -/
theorem ensurePin_transient_error_keeps_record (session : Session)
    (html : String) (s : PinState) (e : TgError)
    (send : Except TgError Nat) (pin : Except TgError Unit)
    (hid : s.messageId ≠ 0) (hchat : s.chatId = session.chatId)
    (herr : ¬(e.code = some 400 ∧ notModifiedMsg e.msg = false)) :
    ensurePin session html (some s) (.err e) send pin =
      { result := .ok s.messageId, sends := 0, pinAttempts := 0, saved := none } := by
  by_cases h400 : e.code = some 400
  · have hmod : notModifiedMsg e.msg = true := by
      rcases Bool.eq_false_or_eq_true (notModifiedMsg e.msg) with h | h
      · exact h
      · exact absurd ⟨h400, h⟩ herr
    simp [ensurePin, hid, hchat, h400, hmod]
  · simp [ensurePin, hid, hchat, h400]

/-- Witness for C1: concrete transient (network, no error code) edit failure
on a matching record leaves everything untouched. -/
theorem ensurePin_transient_error_keeps_record_witness :
    ensurePin { sessionFile := "/x/a.jsonl", model := "m", chatId := "555",
                contextWindow := 131072 }
        "txt" (some { messageId := 7, chatId := "555", sessionFile := "/x/a.jsonl" })
        (.err { code := none, msg := "network timeout" }) (.ok 99) (.ok ()) =
      { result := .ok 7, sends := 0, pinAttempts := 0, saved := none } := by
  exact ensurePin_transient_error_keeps_record _ _ _ _ _ _
    (by decide) rfl (by decide)

/-- **C2.** A single `ensurePin` call issues at most one `sendMessage`, and it
issues one exactly when the stored record is absent, records a different
chat than the target, or the edit of the recorded message failed with the
400 "message not found" semantic error (400 and not "not modified") — never
when the edit succeeded or was a "not modified" no-op.  Stored records are
assumed well-formed (nonzero message id, as written by `saveState`). -/
theorem ensurePin_at_most_one_send (session : Session) (html : String)
    (state : Option PinState) (edit : EditOutcome)
    (send : Except TgError Nat) (pin : Except TgError Unit)
    (hwf : ∀ s, state = some s → s.messageId ≠ 0) :
    (ensurePin session html state edit send pin).sends ≤ 1 ∧
    ((ensurePin session html state edit send pin).sends = 1 ↔
      (state = none ∨
       (∃ s, state = some s ∧ s.chatId ≠ session.chatId) ∨
       ((∃ s, state = some s ∧ s.chatId = session.chatId) ∧
        ∃ e, edit = .err e ∧ e.code = some 400 ∧ notModifiedMsg e.msg = false))) := by
  cases state with
  | none =>
    cases send with
    | error e => simp [ensurePin]
    | ok mid => simp [ensurePin]
  | some s =>
    have hid := hwf s rfl
    by_cases hchat : s.chatId = session.chatId
    · cases edit with
      | ok =>
        cases send with
        | error e => simp [ensurePin, hid, hchat]
        | ok mid => simp [ensurePin, hid, hchat]
      | err e =>
        by_cases h400 : e.code = some 400
        · cases hmod : notModifiedMsg e.msg with
          | true =>
            cases send with
            | error e2 => simp [ensurePin, hid, hchat, h400, hmod]
            | ok mid => simp [ensurePin, hid, hchat, h400, hmod]
          | false =>
            cases send with
            | error e2 => simp [ensurePin, hid, hchat, h400, hmod]
            | ok mid => simp [ensurePin, hid, hchat, h400, hmod]
        · cases send with
          | error e2 => simp [ensurePin, hid, hchat, h400]
          | ok mid => simp [ensurePin, hid, hchat, h400]
    · cases send with
      | error e2 => simp [ensurePin, hid, hchat]
      | ok mid => simp [ensurePin, hid, hchat]

/-- Witness for C2: with an absent record, exactly one send is issued. -/
theorem ensurePin_at_most_one_send_witness :
    (ensurePin { sessionFile := "/x/a.jsonl", model := "m", chatId := "555",
                 contextWindow := 131072 }
        "txt" none .ok (.ok 42) (.ok ())).sends ≤ 1 ∧
    ((ensurePin { sessionFile := "/x/a.jsonl", model := "m", chatId := "555",
                  contextWindow := 131072 }
        "txt" none .ok (.ok 42) (.ok ())).sends = 1 ↔
      ((none : Option PinState) = none ∨
       (∃ s, (none : Option PinState) = some s ∧ s.chatId ≠ "555") ∨
       ((∃ s, (none : Option PinState) = some s ∧ s.chatId = "555") ∧
        ∃ e, EditOutcome.ok = .err e ∧ e.code = some 400 ∧
          notModifiedMsg e.msg = false))) := by
  exact ensurePin_at_most_one_send _ _ _ _ _ _ (fun s h => by simp at h)

/-- **C5.** When the edit of a matching recorded message fails with the 400
"message to edit not found" semantic error, `ensurePin` sends exactly one
new message, attempts exactly one pin (whatever the pin outcome — a pin
failure is non-fatal), returns the new message id, and overwrites the pin
record with the new message id, the target chat and the current session
log file. -/
theorem ensurePin_recreates_on_not_found (session : Session) (html : String)
    (s : PinState) (e : TgError) (mid : Nat) (pin : Except TgError Unit)
    (hid : s.messageId ≠ 0) (hchat : s.chatId = session.chatId)
    (h400 : e.code = some 400) (hmod : notModifiedMsg e.msg = false) :
    ensurePin session html (some s) (.err e) (.ok mid) pin =
      { result := .ok mid, sends := 1, pinAttempts := 1,
        saved := some { messageId := mid, chatId := session.chatId,
                        sessionFile := session.sessionFile } } := by
  simp [ensurePin, hid, hchat, h400, hmod]

/-- Witness for C5: a 400 "message to edit not found" error on a matching
record triggers one send, one pin attempt (here a failing one), and a state
overwrite with the new identity. -/
theorem ensurePin_recreates_on_not_found_witness :
    ensurePin { sessionFile := "/x/a.jsonl", model := "m", chatId := "555",
                contextWindow := 131072 }
        "txt" (some { messageId := 7, chatId := "555", sessionFile := "/x/old.jsonl" })
        (.err { code := some 400, msg := "Bad Request: message to edit not found" })
        (.ok 42) (.error { code := some 400, msg := "not enough rights to pin" }) =
      { result := .ok 42, sends := 1, pinAttempts := 1,
        saved := some { messageId := 42, chatId := "555",
                        sessionFile := "/x/a.jsonl" } } := by
  exact ensurePin_recreates_on_not_found _ _ _ _ _ _
    (by decide) rfl rfl (by decide)

/-- **C6.** When the edit call fails with the 400 "message is not modified"
semantic error, `ensurePin` treats it as success: it returns the stored
message id, sends nothing, and performs no state write at all (the persisted
record stays byte-for-byte unchanged). -/
theorem ensurePin_not_modified_noop (session : Session) (html : String)
    (s : PinState) (e : TgError) (send : Except TgError Nat)
    (pin : Except TgError Unit)
    (hid : s.messageId ≠ 0) (hchat : s.chatId = session.chatId)
    (h400 : e.code = some 400) (hmod : notModifiedMsg e.msg = true) :
    ensurePin session html (some s) (.err e) send pin =
      { result := .ok s.messageId, sends := 0, pinAttempts := 0, saved := none } := by
  simp [ensurePin, hid, hchat, h400, hmod]

/-- Witness for C6: the Telegram "message is not modified" 400 error is a
no-op success. -/
theorem ensurePin_not_modified_noop_witness :
    ensurePin { sessionFile := "/x/a.jsonl", model := "m", chatId := "555",
                contextWindow := 131072 }
        "txt" (some { messageId := 7, chatId := "555", sessionFile := "/x/a.jsonl" })
        (.err { code := some 400,
                msg := "Bad Request: message is not modified: ..." })
        (.ok 99) (.ok ()) =
      { result := .ok 7, sends := 0, pinAttempts := 0, saved := none } := by
  exact ensurePin_not_modified_noop _ _ _ _ _ _ (by decide) rfl rfl (by decide)

/-! ## Message formatting (handler.js lines 276-346)

JSON numbers carrying monetary amounts are modelled as rationals; `toFixed`
is modelled as exact decimal rounding (half away from zero), `Math.round`
as floor of `x + 1/2` (half toward positive infinity). -/

/-- A balance snapshot as returned by `fetchBalance` (handler.js 192-206).
`limit` is nullable (`null` = unlimited). -/
structure Balance where
  limit : Option ℚ
  limitRemaining : ℚ
  usage : ℚ
  usageDaily : ℚ
deriving DecidableEq, Repr

/-- JS `Math.round`: affinely, `⌊x + 1/2⌋` (ties toward positive infinity). -/
def jsRound (q : ℚ) : ℤ :=
  Int.fdiv (2 * q.num + q.den) (2 * (q.den : ℤ))

/-- Left-pad a digit string with zeroes to width `d`. -/
def padZeroes (d : Nat) (s : String) : String :=
  String.mk (List.replicate (d - s.length) '0') ++ s

/-- `toFixed(d)` for a nonnegative rational: round half away from zero to
`d` decimal places and render. -/
def toFixedPos (d : Nat) (q : ℚ) : String :=
  let n : Nat := (jsRound (q * ((10 ^ d : Nat) : ℚ))).toNat
  let ip := n / 10 ^ d
  let fp := n % 10 ^ d
  if d = 0 then toString ip
  else toString ip ++ "." ++ padZeroes d (toString fp)

/-- JS `Number.prototype.toFixed(d)` on a rational (half away from zero). -/
def toFixedQ (d : Nat) (q : ℚ) : String :=
  if q < 0 then "-" ++ toFixedPos d (-q) else toFixedPos d q

/-- `fmtDollars` (handler.js 289-291); both call sites pass `decimals = 2`,
matching the default. -/
def fmtDollars (q : ℚ) : String := "$" ++ toFixedQ 2 q

/-- `fmtTokens` (handler.js 283-287). -/
def fmtTokens (n : Nat) : String :=
  if n ≥ 1000000 then toFixedQ 1 ((n : ℚ) / 1000000) ++ "M"
  else if n ≥ 1000 then toFixedQ 1 ((n : ℚ) / 1000) ++ "K"
  else toString n

/-- `esc` (handler.js 276-281): HTML-escape `&`, `<`, `>` in that order. -/
def esc (s : String) : String :=
  ((s.replace "&" "&amp;").replace "<" "&lt;").replace ">" "&gt;"

/-- `balanceIndicator` (handler.js 293-299). -/
def balanceIndicator (limit : Option ℚ) (remaining : ℚ) : String :=
  match limit with
  | none => "⚪"
  | some l =>
    if l = 0 then "⚪"
    else
      let pct := remaining / l
      if pct > 1/4 then "🟢"
      else if pct > 1/10 then "🟡"
      else "🔴"

/-- Two-digit zero-padded rendering (`String(n).padStart(2, "0")`). -/
def pad2 (n : Nat) : String :=
  if n < 10 then "0" ++ toString n else toString n

/-- The context-percentage segment (handler.js 306-309). -/
def ctxSegment (session : Session) (usage : Option Usage) : String :=
  let ctxPct :=
    match usage with
    | some u =>
      toString (jsRound (((u.input : ℚ) / (session.contextWindow : ℚ)) * 100)) ++ "%"
    | none => "–%"
  "📊 " ++ ctxPct ++ " ctx"

/-- The balance segments (handler.js 312-325): empty when no snapshot is
available, otherwise the remaining/used line (with stale marker) and the
today's-spend line. -/
def balanceSegments (balance : Option Balance) (stale : Bool) : List String :=
  match balance with
  | none => []
  | some b =>
    let ind := balanceIndicator b.limit b.limitRemaining
    let staleTag := if stale then "*" else ""
    let main :=
      match b.limit with
      | some _ => ind ++ " " ++ fmtDollars b.limitRemaining ++ " left" ++ staleTag
      | none => ind ++ " " ++ fmtDollars b.usage ++ " used" ++ staleTag
    [main, "📅 " ++ fmtDollars b.usageDaily ++ " today"]

/-- The output/cache token segments (handler.js 331-337). -/
def tokenSegments (usage : Option Usage) : List String :=
  match usage with
  | none => []
  | some u =>
    let t1 := if u.output ≠ 0 then ["↗ " ++ fmtTokens u.output ++ " out"] else []
    let t2 := if u.cacheRead ≠ 0 then ["📦 " ++ fmtTokens u.cacheRead ++ " cache"] else []
    let ts := t1 ++ t2
    if ts.isEmpty then [] else [String.intercalate " " ts]

/-- The parts array built by `formatStatusMessage` (handler.js 301-345);
the wall clock is passed in as hour/minute. -/
def statusParts (session : Session) (usage : Option Usage)
    (balance : Option Balance) (stale : Bool) (hh mm : Nat) : List String :=
  [ctxSegment session usage] ++ balanceSegments balance stale ++
    ["🤖 " ++ esc session.model] ++ tokenSegments usage ++
    ["🕐 " ++ pad2 hh ++ ":" ++ pad2 mm]

/-- `formatStatusMessage` (handler.js 301-346): segments joined by `" │ "`. -/
def formatStatusMessage (session : Session) (usage : Option Usage)
    (balance : Option Balance) (stale : Bool) (hh mm : Nat) : String :=
  String.intercalate " │ " (statusParts session usage balance stale hh mm)

/-! ## Update cycle (`runUpdate`, handler.js lines 402-423)

The module-level mutable state (`lastUpdateTime`, `cachedBalance`, plus the
persisted pin record read and written by `ensurePin`) is threaded
explicitly.  Each invocation carries its trigger time (`Date.now()`), the
log file contents, the balance-fetch outcome, the Telegram oracles and the
wall clock used by the formatter. -/

/-- The relevant configuration (handler.js `resolveConfig`). -/
structure Config where
  cooldownMs : ℤ
deriving DecidableEq, Repr

/-- The module-level state of handler.js (lines 20-25) together with the
persisted pin record. -/
structure UpdState where
  lastUpdateTime : ℤ
  cachedBalance : Option Balance
  pinState : Option PinState
deriving Repr

/-- Inputs of one `runUpdate` invocation: trigger time, log file contents
(`none` = file missing), outcome of `fetchBalance`, Telegram oracles and
the wall clock (hour, minute) read while formatting. -/
structure Inv where
  now : ℤ
  file : Option (List LineEntry)
  fetch : Except String Balance
  edit : EditOutcome
  send : Except TgError Nat
  pin : Except TgError Unit
  hh : Nat
  mm : Nat

/-- Observable effects of one executed (non-skipped) pass. -/
structure RunTrace where
  usage : Option Usage
  stale : Bool
  html : String
  ensure : EnsureOut

/-- `runUpdate` (handler.js lines 402-423).  Returns the new state and
`none` when the pass was skipped by the cooldown gate, or the trace of the
executed pass. -/
def runUpdate (cfg : Config) (session : Session) (s : UpdState) (inv : Inv) :
    UpdState × Option RunTrace :=
  if inv.now - s.lastUpdateTime < cfg.cooldownMs then (s, none)
  else
    let usage := parseLastUsage inv.file
    let balStale : Option Balance × Bool :=
      match inv.fetch with
      | .ok b => (some b, false)
      | .error _ => (s.cachedBalance, s.cachedBalance.isSome)
    let bal := balStale.1
    let stale := balStale.2
    let html := formatStatusMessage session usage bal stale inv.hh inv.mm
    let eo := ensurePin session html s.pinState inv.edit inv.send inv.pin
    let pin' := match eo.saved with
      | some p => some p
      | none => s.pinState
    ({ lastUpdateTime := inv.now, cachedBalance := bal, pinState := pin' },
     some { usage := usage, stale := stale, html := html, ensure := eo })

/-- A sequence of `runUpdate` invocations; returns the final state and the
trace of `(trigger time, executed?)` pairs. -/
def runSeq (cfg : Config) (session : Session) :
    UpdState → List Inv → UpdState × List (ℤ × Bool)
  | s, [] => (s, [])
  | s, inv :: rest =>
    let step := runUpdate cfg session s inv
    let tail := runSeq cfg session step.1 rest
    (tail.1, (inv.now, step.2.isSome) :: tail.2)

/-- A fixed session used to instantiate theorems on concrete inputs. -/
def testSession : Session :=
  { sessionFile := "/x/a.jsonl", model := "m", chatId := "555",
    contextWindow := 131072 }

/-- The default configuration (cooldown 3000 ms). -/
def testConfig : Config := { cooldownMs := 3000 }

/-- The module-level state right after process start: `lastUpdateTime = 0`,
no cached balance, no persisted pin record. -/
def initialState : UpdState :=
  { lastUpdateTime := 0, cachedBalance := none, pinState := none }

/-- A concrete invocation at trigger time `t` (missing log file, failing
balance fetch, successful Telegram calls, clock 12:00). -/
def invAt (t : ℤ) : Inv :=
  { now := t, file := none, fetch := .error "down", edit := .ok,
    send := .ok 1, pin := .ok (), hh := 12, mm := 0 }

/-- **C4 (counterexample).**  Two invocations whose start times differ by
1 ms < 3000 ms cooldown, yet the second performs a full pass: from the
initial state, an invocation at t = 2999 is itself swallowed by the
cooldown gate (it does not advance `lastUpdateTime`), so the invocation at
t = 3000 passes the gate and publishes.  This refutes the claim that the
second of any two invocations less than a cooldown window apart returns
without performing any step. -/
theorem runUpdate_cooldown_pair_counterexample :
    ((invAt 3000).now - (invAt 2999).now < testConfig.cooldownMs) ∧
    (runUpdate testConfig testSession initialState (invAt 2999)).2 = none ∧
    ((runUpdate testConfig testSession
        (runUpdate testConfig testSession initialState (invAt 2999)).1
        (invAt 3000)).2).isSome = true := by
  refine ⟨by decide, ?_, ?_⟩
  · simp [runUpdate, initialState, invAt, testConfig]
  · have h1 : (runUpdate testConfig testSession initialState (invAt 2999)).1 =
        initialState := by
      simp [runUpdate, initialState, invAt, testConfig]
    rw [h1]
    simp [runUpdate, initialState, invAt, testConfig]

/-- **C4 (amended).**  For every two invocations where the first passes the
cooldown gate and the second starts less than the cooldown window after the
first, the first performs a full pass and the second returns without
performing any step (state unchanged, no usage extraction, no fetch, no
publish) — so exactly one externally observable publish action results from
the pair. -/
theorem runUpdate_cooldown_pair (cfg : Config) (session : Session)
    (s : UpdState) (invA invB : Inv)
    (h1 : cfg.cooldownMs ≤ invA.now - s.lastUpdateTime)
    (h2 : invB.now - invA.now < cfg.cooldownMs) :
    ((runUpdate cfg session s invA).2).isSome = true ∧
    runUpdate cfg session (runUpdate cfg session s invA).1 invB =
      ((runUpdate cfg session s invA).1, none) := by
  have hg : ¬(invA.now - s.lastUpdateTime < cfg.cooldownMs) := not_lt.mpr h1
  constructor
  · simp [runUpdate, hg]
  · have hA : (runUpdate cfg session s invA).1.lastUpdateTime = invA.now := by
      simp [runUpdate, hg]
    have hgate : invB.now - (runUpdate cfg session s invA).1.lastUpdateTime <
        cfg.cooldownMs := by rw [hA]; exact h2
    generalize hS : (runUpdate cfg session s invA).1 = S1 at hgate ⊢
    simp [runUpdate, hgate]

/-- Witness for C4 (amended): a pass at t = 5000 runs, a pass at t = 5001
is fully skipped. -/
theorem runUpdate_cooldown_pair_witness :
    ((runUpdate testConfig testSession initialState (invAt 5000)).2).isSome = true ∧
    runUpdate testConfig testSession
        (runUpdate testConfig testSession initialState (invAt 5000)).1
        (invAt 5001) =
      ((runUpdate testConfig testSession initialState (invAt 5000)).1, none) := by
  exact runUpdate_cooldown_pair _ _ _ _ _ (by decide) (by decide)

lemma getLastD_cons (a d : ℤ) (l : List ℤ) :
    ((a :: l).getLast?).getD d = (l.getLast?).getD a := by
  induction l generalizing a d with
  | nil => rfl
  | cons b bs ih => rw [List.getLast?_cons_cons, ih b d, ih b a]

lemma runSeq_lastUpdateTime (cfg : Config) (session : Session) :
    ∀ (invs : List Inv) (s : UpdState),
      (runSeq cfg session s invs).1.lastUpdateTime =
        ((((runSeq cfg session s invs).2.filter (fun p => p.2)).map
            (fun p => p.1)).getLast?).getD s.lastUpdateTime := by
  intro invs
  induction invs with
  | nil => intro s; rfl
  | cons inv rest ih =>
    intro s
    by_cases h : inv.now - s.lastUpdateTime < cfg.cooldownMs
    · have hstep : runUpdate cfg session s inv = (s, none) := by
        simp [runUpdate, h]
      simp only [runSeq, hstep, Option.isSome_none]
      rw [List.filter_cons_of_neg (by simp)]
      exact ih s
    · have hlast : (runUpdate cfg session s inv).1.lastUpdateTime = inv.now := by
        simp [runUpdate, h]
      have hsome : ((runUpdate cfg session s inv).2).isSome = true := by
        simp [runUpdate, h]
      simp only [runSeq, hsome]
      rw [List.filter_cons_of_pos (by simp), List.map_cons, getLastD_cons,
        ih (runUpdate cfg session s inv).1, hlast]

/-- **C9.**  The cooldown clock `lastUpdateTime` is advanced only by passes
that pass the cooldown gate: a skipped invocation leaves the whole state
unchanged; an executed one sets `lastUpdateTime` to its trigger time; over
any sequence of invocations `lastUpdateTime` ends at the trigger time of
the most recent executed pass (or its initial value when none executed);
hence any later invocation at least one cooldown window after the most
recent executed pass always executes — a dense burst cannot postpone it. -/
theorem runUpdate_gate_advances_clock (cfg : Config) (session : Session)
    (s : UpdState) :
    (∀ inv : Inv, inv.now - s.lastUpdateTime < cfg.cooldownMs →
      runUpdate cfg session s inv = (s, none)) ∧
    (∀ inv : Inv, cfg.cooldownMs ≤ inv.now - s.lastUpdateTime →
      (runUpdate cfg session s inv).1.lastUpdateTime = inv.now ∧
      ((runUpdate cfg session s inv).2).isSome = true) ∧
    (∀ invs : List Inv,
      (runSeq cfg session s invs).1.lastUpdateTime =
        ((((runSeq cfg session s invs).2.filter (fun p => p.2)).map
            (fun p => p.1)).getLast?).getD s.lastUpdateTime) ∧
    (∀ (invs : List Inv) (inv : Inv),
      cfg.cooldownMs ≤ inv.now - (runSeq cfg session s invs).1.lastUpdateTime →
      ((runUpdate cfg session (runSeq cfg session s invs).1 inv).2).isSome = true) := by
  refine ⟨?_, ?_, ?_, ?_⟩
  · intro inv h; simp [runUpdate, h]
  · intro inv h
    have hg : ¬(inv.now - s.lastUpdateTime < cfg.cooldownMs) := not_lt.mpr h
    exact ⟨by simp [runUpdate, hg], by simp [runUpdate, hg]⟩
  · intro invs; exact runSeq_lastUpdateTime cfg session invs s
  · intro invs inv h
    have hg : ¬(inv.now - (runSeq cfg session s invs).1.lastUpdateTime <
        cfg.cooldownMs) := not_lt.mpr h
    simp [runUpdate, hg]

/-- Witness for C9: from the initial state, a 3-invocation burst at
t = 5000 (runs), t = 5001 and t = 5002 (both skipped) leaves the clock at
5000, and an invocation at t = 8000 executes. -/
theorem runUpdate_gate_advances_clock_witness :
    runUpdate testConfig testSession initialState (invAt 2999) =
      (initialState, none) ∧
    (runSeq testConfig testSession initialState
        [invAt 5000, invAt 5001, invAt 5002]).1.lastUpdateTime =
      (((((runSeq testConfig testSession initialState
            [invAt 5000, invAt 5001, invAt 5002]).2.filter (fun p => p.2)).map
          (fun p => p.1)).getLast?).getD initialState.lastUpdateTime) ∧
    ((runUpdate testConfig testSession
        (runSeq testConfig testSession initialState
          [invAt 5000, invAt 5001, invAt 5002]).1
        (invAt 8000)).2).isSome = true := by
  refine ⟨?_, ?_, ?_⟩
  · exact (runUpdate_gate_advances_clock testConfig testSession
      initialState).1 (invAt 2999) (by decide)
  · exact (runUpdate_gate_advances_clock testConfig testSession
      initialState).2.2.1 [invAt 5000, invAt 5001, invAt 5002]
  · refine (runUpdate_gate_advances_clock testConfig testSession
      initialState).2.2.2 [invAt 5000, invAt 5001, invAt 5002] (invAt 8000) ?_
    have h : (runSeq testConfig testSession initialState
        [invAt 5000, invAt 5001, invAt 5002]).1.lastUpdateTime = 5000 := by
      simp [runSeq, runUpdate, initialState, invAt, testConfig]
    rw [h]; decide

/-- **C7.**  When the gate passes, the balance fetch fails and a snapshot is
cached, the pass completes: the cache is retained unchanged, the render is
marked stale, the published text is the formatter output for the cached
snapshot with the stale flag, and that output carries the cached balance
value with the `"*"` stale marker appended, plus the cached today's-spend
segment. -/
theorem runUpdate_stale_balance_fallback (cfg : Config) (session : Session)
    (s : UpdState) (inv : Inv) (b : Balance) (emsg : String)
    (hgate : cfg.cooldownMs ≤ inv.now - s.lastUpdateTime)
    (hcache : s.cachedBalance = some b)
    (hfetch : inv.fetch = .error emsg) :
    (runUpdate cfg session s inv).1.cachedBalance = some b ∧
    ∃ tr : RunTrace, (runUpdate cfg session s inv).2 = some tr ∧
      tr.stale = true ∧
      tr.html = formatStatusMessage session tr.usage (some b) true inv.hh inv.mm ∧
      (match b.limit with
       | some _ =>
         (balanceIndicator b.limit b.limitRemaining ++ " " ++
           fmtDollars b.limitRemaining ++ " left" ++ "*") ∈
           statusParts session tr.usage (some b) true inv.hh inv.mm
       | none =>
         (balanceIndicator b.limit b.limitRemaining ++ " " ++
           fmtDollars b.usage ++ " used" ++ "*") ∈
           statusParts session tr.usage (some b) true inv.hh inv.mm) ∧
      ("📅 " ++ fmtDollars b.usageDaily ++ " today") ∈
        statusParts session tr.usage (some b) true inv.hh inv.mm := by
  have hg : ¬(inv.now - s.lastUpdateTime < cfg.cooldownMs) := not_lt.mpr hgate
  constructor
  · simp [runUpdate, hg, hfetch, hcache]
  · refine ⟨⟨parseLastUsage inv.file, true,
      formatStatusMessage session (parseLastUsage inv.file) (some b)
        true inv.hh inv.mm,
      ensurePin session
        (formatStatusMessage session (parseLastUsage inv.file) (some b)
          true inv.hh inv.mm) s.pinState inv.edit inv.send inv.pin⟩, ?_, rfl, rfl, ?_, ?_⟩
    · simp [runUpdate, hg, hfetch, hcache]
    · cases hb : b.limit with
      | some l => simp [statusParts, balanceSegments, hb]
      | none => simp [statusParts, balanceSegments, hb]
    · simp [statusParts, balanceSegments]

/-- A fixed balance snapshot used to instantiate theorems. -/
def testBalance : Balance :=
  { limit := some 100, limitRemaining := 42, usage := 58, usageDaily := 314/100 }

/-- Witness for C7: failing fetch at t = 5000 with a cached snapshot keeps
the cache, marks the render stale and shows `$42.00 left*`. -/
theorem runUpdate_stale_balance_fallback_witness :
    (runUpdate testConfig testSession
        { lastUpdateTime := 0, cachedBalance := some testBalance,
          pinState := none } (invAt 5000)).1.cachedBalance = some testBalance ∧
    ∃ tr : RunTrace,
      (runUpdate testConfig testSession
        { lastUpdateTime := 0, cachedBalance := some testBalance,
          pinState := none } (invAt 5000)).2 = some tr ∧
      tr.stale = true ∧
      tr.html = formatStatusMessage testSession tr.usage (some testBalance)
        true (invAt 5000).hh (invAt 5000).mm ∧
      (match testBalance.limit with
       | some _ =>
         (balanceIndicator testBalance.limit testBalance.limitRemaining ++ " " ++
           fmtDollars testBalance.limitRemaining ++ " left" ++ "*") ∈
           statusParts testSession tr.usage (some testBalance) true
             (invAt 5000).hh (invAt 5000).mm
       | none =>
         (balanceIndicator testBalance.limit testBalance.limitRemaining ++ " " ++
           fmtDollars testBalance.usage ++ " used" ++ "*") ∈
           statusParts testSession tr.usage (some testBalance) true
             (invAt 5000).hh (invAt 5000).mm) ∧
      ("📅 " ++ fmtDollars testBalance.usageDaily ++ " today") ∈
        statusParts testSession tr.usage (some testBalance) true
          (invAt 5000).hh (invAt 5000).mm := by
  exact runUpdate_stale_balance_fallback _ _ _ _ _ "down" (by decide) rfl rfl

/-- **C10.**  When the gate passes, the balance fetch fails and no snapshot
has ever been cached, the pass still completes and publishes: the stale
flag stays false and the formatted parts contain no balance segment and no
today's-spend segment (hence no stale marker either). -/
theorem runUpdate_no_balance_no_segment (cfg : Config) (session : Session)
    (s : UpdState) (inv : Inv) (emsg : String)
    (hgate : cfg.cooldownMs ≤ inv.now - s.lastUpdateTime)
    (hcache : s.cachedBalance = none)
    (hfetch : inv.fetch = .error emsg) :
    (runUpdate cfg session s inv).1.cachedBalance = none ∧
    ∃ tr : RunTrace, (runUpdate cfg session s inv).2 = some tr ∧
      tr.stale = false ∧
      tr.html = formatStatusMessage session tr.usage none false inv.hh inv.mm ∧
      statusParts session tr.usage none false inv.hh inv.mm =
        [ctxSegment session tr.usage] ++ ["🤖 " ++ esc session.model] ++
          tokenSegments tr.usage ++ ["🕐 " ++ pad2 inv.hh ++ ":" ++ pad2 inv.mm] := by
  have hg : ¬(inv.now - s.lastUpdateTime < cfg.cooldownMs) := not_lt.mpr hgate
  constructor
  · simp [runUpdate, hg, hfetch, hcache]
  · refine ⟨⟨parseLastUsage inv.file, false,
      formatStatusMessage session (parseLastUsage inv.file) none
        false inv.hh inv.mm,
      ensurePin session
        (formatStatusMessage session (parseLastUsage inv.file) none
          false inv.hh inv.mm) s.pinState inv.edit inv.send inv.pin⟩, ?_, rfl, rfl, ?_⟩
    · simp [runUpdate, hg, hfetch, hcache]
    · simp [statusParts, balanceSegments]

/-- Witness for C10: first-ever fetch fails from the initial state — the
pass publishes a message with no balance and no today segment. -/
theorem runUpdate_no_balance_no_segment_witness :
    (runUpdate testConfig testSession initialState (invAt 5000)).1.cachedBalance
      = none ∧
    ∃ tr : RunTrace,
      (runUpdate testConfig testSession initialState (invAt 5000)).2 = some tr ∧
      tr.stale = false ∧
      tr.html = formatStatusMessage testSession tr.usage none false
        (invAt 5000).hh (invAt 5000).mm ∧
      statusParts testSession tr.usage none false (invAt 5000).hh (invAt 5000).mm =
        [ctxSegment testSession tr.usage] ++ ["🤖 " ++ esc testSession.model] ++
          tokenSegments tr.usage ++
          ["🕐 " ++ pad2 (invAt 5000).hh ++ ":" ++ pad2 (invAt 5000).mm] := by
  exact runUpdate_no_balance_no_segment _ _ _ _ "down" (by decide) rfl rfl


/-! ## Session discovery (`discoverSession`, handler.js lines 104-138)

The session registry (`sessions.json`) is a list of key/entry pairs; the
environment overrides (`STATUS_PIN_CHAT_ID`, `STATUS_PIN_CONTEXT_WINDOW`)
and the model-capacity cache are explicit inputs.  JS truthiness of a
string is `≠ ""`, of a parsed integer `≠ 0`. -/

/-- A registry entry: `sessionFile`, optional `model` and the
`deliveryContext.to` field. -/
structure RegEntry where
  sessionFile : Option String
  model : Option String
  deliveryTo : Option String
deriving DecidableEq, Repr

/-- Inputs of session discovery: agent id and the two env overrides
(`envContextWindow` is the already-parsed integer, `0` when unset,
non-numeric or zero — all falsy in JS). -/
structure DiscConfig where
  agentId : String
  envChatId : Option String
  envContextWindow : Nat
deriving DecidableEq, Repr

/-- The errors `discoverSession` throws. -/
inductive DiscError where
  | noChatId
  | noSessionFile (key : String)
  | noSession (agentId : String)
deriving DecidableEq, Repr

/-- The session descriptor produced by discovery (`contextWindow` may still
be unresolved). -/
structure SessionInfo where
  sessionFile : String
  model : String
  chatId : String
  contextWindow : Option Nat
deriving DecidableEq, Repr

/-- The regex `/^telegram:(\d+)$/` of handler.js line 118: an anchored
literal head `telegram:` followed by one or more ASCII digits, capturing
the digits. -/
def telegramChatId (s : String) : Option String :=
  match s.data with
  | 't' :: 'e' :: 'l' :: 'e' :: 'g' :: 'r' :: 'a' :: 'm' :: ':' :: rest =>
    match rest with
    | [] => none
    | _ =>
      if rest.all Char.isDigit then some (String.mk rest) else none
  | _ => none

/-- Chat-id resolution (handler.js lines 116-120): a truthy
`STATUS_PIN_CHAT_ID` wins, else the delivery target (when present) is
matched against the telegram pattern. -/
def resolveChatId (envChatId : Option String) (deliveryTo : Option String) :
    Option String :=
  match envChatId with
  | some c =>
    if c.isEmpty then
      match deliveryTo with
      | some t => telegramChatId t
      | none => none
    else some c
  | none =>
    match deliveryTo with
    | some t => telegramChatId t
    | none => none

/-- The `for ... of Object.entries(sessions)` loop head: first entry whose
key starts with `agent:<id>:` (JS `String.prototype.startsWith`, modelled
as character-list prefix). -/
def findEntry (agentId : String) : List (String × RegEntry) →
    Option (String × RegEntry)
  | [] => none
  | (k, e) :: rest =>
    if ("agent:" ++ agentId ++ ":").data.isPrefixOf k.data then some (k, e)
    else findEntry agentId rest

/-- `discoverSession` (handler.js lines 104-138).  `cache` is the
model-capacity cache (`modelContextCache`). -/
def discoverSession (cfg : DiscConfig) (cache : String → Option Nat)
    (registry : List (String × RegEntry)) : Except DiscError SessionInfo :=
  match findEntry cfg.agentId registry with
  | none => .error (.noSession cfg.agentId)
  | some (key, entry) =>
    let model := match entry.model with
      | some m => if m.isEmpty then "unknown" else m
      | none => "unknown"
    let chatId := resolveChatId cfg.envChatId entry.deliveryTo
    let contextWindow :=
      if cfg.envContextWindow ≠ 0 then some cfg.envContextWindow else cache model
    match chatId with
    | none => .error .noChatId
    | some c =>
      match entry.sessionFile with
      | none => .error (.noSessionFile key)
      | some f =>
        if f.isEmpty then .error (.noSessionFile key)
        else .ok { sessionFile := f, model := model, chatId := c,
                   contextWindow := contextWindow }

lemma telegramChatId_append (d : String) (hne : d.data ≠ [])
    (hdig : d.data.all Char.isDigit = true) :
    telegramChatId ("telegram:" ++ d) = some d := by
  obtain ⟨l⟩ := d
  have hd : ("telegram:" ++ String.mk l).data =
      't' :: 'e' :: 'l' :: 'e' :: 'g' :: 'r' :: 'a' :: 'm' :: ':' :: l := rfl
  rw [telegramChatId, hd]
  cases l with
  | nil => exact absurd rfl hne
  | cons c cs => simp only at hdig ⊢; rw [if_pos hdig]

/-- **C8.**  For a registry whose first matching entry carries a delivery
target of the form `telegram:<digits>`, discovery with no explicit chat-id
override resolves the chat identity to exactly the digits; a (truthy)
explicit override always wins; and when neither the override nor the
delivery target yields a chat identity, discovery fails with the chat-id
configuration error. -/
theorem discoverSession_chat_resolution (cfg : DiscConfig)
    (cache : String → Option Nat) (registry : List (String × RegEntry))
    (key : String) (entry : RegEntry)
    (hfind : findEntry cfg.agentId registry = some (key, entry)) :
    ((∀ (d f : String), cfg.envChatId = none →
        entry.deliveryTo = some ("telegram:" ++ d) → d.data ≠ [] →
        d.data.all Char.isDigit = true → entry.sessionFile = some f →
        f.isEmpty = false →
        ∃ si : SessionInfo, discoverSession cfg cache registry = .ok si ∧
          si.chatId = d) ∧
     (∀ (c f : String), cfg.envChatId = some c → c.isEmpty = false →
        entry.sessionFile = some f → f.isEmpty = false →
        ∃ si : SessionInfo, discoverSession cfg cache registry = .ok si ∧
          si.chatId = c) ∧
     ((match cfg.envChatId with
       | some c => c.isEmpty = true
       | none => True) →
      (match entry.deliveryTo with
       | some t => telegramChatId t = none
       | none => True) →
      discoverSession cfg cache registry = .error .noChatId)) := by
  refine ⟨?_, ?_, ?_⟩
  · intro d f henv hto hne hdig hf hfe
    simp only [discoverSession, hfind, resolveChatId, henv, hto,
      telegramChatId_append d hne hdig, hf, hfe]
    exact ⟨_, rfl, rfl⟩
  · intro c f henv hce hf hfe
    simp only [discoverSession, hfind, resolveChatId, henv, hce, hf, hfe,
      Bool.false_eq_true, if_false]
    exact ⟨_, rfl, rfl⟩
  · intro henv hto
    have hchat : resolveChatId cfg.envChatId entry.deliveryTo = none := by
      cases he : cfg.envChatId with
      | none =>
        cases ht : entry.deliveryTo with
        | none => simp [resolveChatId]
        | some t =>
          have h2 : telegramChatId t = none := by rw [ht] at hto; exact hto
          simp [resolveChatId, h2]
      | some c =>
        have hce : c.isEmpty = true := by rw [he] at henv; exact henv
        cases ht : entry.deliveryTo with
        | none => simp [resolveChatId, hce]
        | some t =>
          have h2 : telegramChatId t = none := by rw [ht] at hto; exact hto
          simp [resolveChatId, hce, h2]
    simp only [discoverSession, hfind, hchat]

/-- A registry entry whose delivery target is `telegram:555`. -/
def testEntryTg : RegEntry :=
  { sessionFile := some "/x/a.jsonl", model := some "m",
    deliveryTo := some "telegram:555" }

/-- A registry entry whose delivery target does not match the telegram
pattern. -/
def testEntryOther : RegEntry :=
  { sessionFile := some "/x/a.jsonl", model := some "m",
    deliveryTo := some "discord:555" }

/-- Discovery configuration without a chat-id override. -/
def testDiscNoEnv : DiscConfig :=
  { agentId := "main", envChatId := none, envContextWindow := 0 }

/-- Discovery configuration with the chat-id override `999`. -/
def testDiscEnv : DiscConfig :=
  { agentId := "main", envChatId := some "999", envContextWindow := 0 }

/-- Witness for C8: delivery target `telegram:555` resolves to chat `555`;
override `999` wins over the delivery target; a non-matching delivery
target with no override fails with the chat-id configuration error. -/
theorem discoverSession_chat_resolution_witness :
    (∃ si : SessionInfo,
      discoverSession testDiscNoEnv (fun _ => none)
        [("agent:main:abc", testEntryTg)] = .ok si ∧ si.chatId = "555") ∧
    (∃ si : SessionInfo,
      discoverSession testDiscEnv (fun _ => none)
        [("agent:main:abc", testEntryTg)] = .ok si ∧ si.chatId = "999") ∧
    discoverSession testDiscNoEnv (fun _ => none)
      [("agent:main:abc", testEntryOther)] = .error .noChatId := by
  refine ⟨?_, ?_, ?_⟩
  · exact (discoverSession_chat_resolution testDiscNoEnv (fun _ => none)
      [("agent:main:abc", testEntryTg)] "agent:main:abc" testEntryTg
      rfl).1 "555" "/x/a.jsonl" rfl rfl (by decide) (by decide)
      rfl (by decide)
  · exact (discoverSession_chat_resolution testDiscEnv (fun _ => none)
      [("agent:main:abc", testEntryTg)] "agent:main:abc" testEntryTg
      rfl).2.1 "999" "/x/a.jsonl" rfl (by decide) rfl (by decide)
  · exact (discoverSession_chat_resolution testDiscNoEnv (fun _ => none)
      [("agent:main:abc", testEntryOther)] "agent:main:abc" testEntryOther
      rfl).2.2 trivial rfl

end StatusPin
